import Mathlib

/-!
Verification development for the `key-value.py` example clients
(`src/basic_example.py`, `src/encrypted_example.py`) and the server-side
Entry Store their contract implies.

Shallow embedding conventions:
* Python JSON-compatible values are modelled by the inductive type `JVal`.
  Its universe is exactly the values that survive a JSON round trip
  (string keys, no tuples, no floats), so `json.loads(json.dumps(d)) = d`
  holds for every `JVal` by construction.
* The external libraries (`json`, `base64`, `cryptography.fernet`,
  `cryptography...PBKDF2`, `requests`) are modelled symbolically and
  idealized as documented on each definition; the repository's own code
  (envelope construction, flag checks, request bodies, response parsing)
  is translated line by line.
* An exception raised by a method is modelled as `Except.error` carrying
  the Python exception class.
-/

/-- Python exception classes that the modelled code can raise. -/
inductive PyErr where
  /-- `ValueError` (raised by `_decrypt_data` on a non-encrypted envelope). -/
  | valueError
  /-- `KeyError` (subscripting a dict with a missing key). -/
  | keyError
  /-- `AttributeError` (calling `.get` on a non-dict value). -/
  | attributeError
  /-- `TypeError` (e.g. `base64.b64decode` applied to a non-string). -/
  | typeError
  /-- `cryptography.fernet.InvalidToken` (authentication failure on decrypt). -/
  | invalidToken
  /-- `requests.exceptions.HTTPError` (raised by `Response.raise_for_status`). -/
  | httpError
deriving DecidableEq, Repr

/-- Model of the key returned by `PBKDF2(...).derive` + `urlsafe_b64encode` and
wrapped in a `Fernet` cipher object, as built by
`EncryptedKeyValueClient._create_cipher` (src/encrypted_example.py:38-51).
PBKDF2-HMAC is a deterministic function of the algorithm, output length, salt,
iteration count and password; the model records those inputs as the key itself
(an injective idealization: hash collisions between distinct inputs are not
modelled). -/
structure DerivedKey where
  algorithm : String
  length : Nat
  salt : String
  iterations : Nat
  password : String
deriving DecidableEq, Repr

/-- Model of Python JSON-compatible values.

The constructor `fernetB64` models the base64 text produced by
`base64.b64encode(cipher.encrypt(json.dumps(v).encode())).decode('utf-8')`
(src/encrypted_example.py:62-66): a Fernet ciphertext under `key` whose
plaintext is the UTF-8 JSON serialization of `plain`. JSON serialization,
base64 and the Fernet cipher are external libraries modelled symbolically:
serialization is injective with `json.loads` as its inverse, base64 is
injective with `b64decode` as its inverse, and Fernet is an ideal
authenticated cipher (decryption succeeds exactly under the encrypting key,
and the randomized timestamp/IV of real Fernet tokens is not modelled since
no claim depends on it). -/
inductive JVal where
  | null
  | bool (b : Bool)
  | int (n : Int)
  | str (s : String)
  | fernetB64 (key : DerivedKey) (plain : JVal)
  | arr (xs : List JVal)
  | obj (kvs : List (String × JVal))

/-- Lookup in the association-list model of a Python dict (first match;
Python dicts have unique keys). Models both `d[k]` and `d.get(k)` result
content; the callers decide what a `none` means (`KeyError` vs `None`). -/
def lookupKV : List (String × JVal) → String → Option JVal
  | [], _ => none
  | (k, v) :: rest, key => if k = key then some v else lookupKV rest key

/-- The keys of a modelled Python dict, in insertion order; `none` on a
non-dict value. -/
def objKeys : JVal → Option (List String)
  | .obj kvs => some (kvs.map (fun kv => kv.1))
  | _ => none

/-- Field access on a modelled JSON value: `objGet v k` is the value of key
`k` when `v` is a dict containing it, else `none`. -/
def objGet (v : JVal) (k : String) : Option JVal :=
  match v with
  | .obj kvs => lookupKV kvs k
  | _ => none

/-- Python truthiness of a JSON-compatible value: `None`, `False`, `0`, `""`,
`[]` and `{}` are falsy, everything else truthy. A `fernetB64` value models a
base64 text of a Fernet token, which is never the empty string, hence truthy. -/
def pyTruthy : JVal → Bool
  | .null => false
  | .bool b => b
  | .int n => n != 0
  | .str s => !(s == "")
  | .fernetB64 _ _ => true
  | .arr xs => !xs.isEmpty
  | .obj kvs => !kvs.isEmpty

/-- Truthiness of a `dict.get` result: Python's `.get` returns `None` (falsy)
when the key is absent. -/
def pyTruthyOpt : Option JVal → Bool
  | none => false
  | some v => pyTruthy v

/-- Truthiness of an `Optional[int]` argument: `if ttl:` is true exactly when
`ttl` is neither `None` nor `0` (src/basic_example.py:48,
src/encrypted_example.py:96). -/
def pyTruthyOptInt : Option Int → Bool
  | none => false
  | some t => t != 0

/-- Model of an HTTP request as assembled by the `requests` calls in the
clients: method, URL, query parameters (`params=`) and optional JSON body
(`json=`). -/
structure HttpRequest where
  method : String
  url : String
  params : List (String × String)
  jsonBody : Option JVal

/-- Model of an HTTP response as consumed by the clients: a status code and
the JSON value that `response.json()` parses to. Responses whose bodies are
not JSON are outside the model. -/
structure HttpResponse where
  status : Nat
  body : JVal

/-- Model of `requests.Response.raise_for_status`: per the `requests` library
contract it raises `HTTPError` exactly when `400 <= status_code < 600`
(client and server errors); informational and redirect statuses do not raise. -/
def raise_for_status_raises (status : Nat) : Bool :=
  400 ≤ status && status < 600

namespace KeyValueClient

/-- The request issued by `KeyValueClient.generate_token`
(src/basic_example.py:25-30): `GET {base_url}/api/generate`. -/
def generate_request (baseUrl : String) : HttpRequest :=
  { method := "GET", url := baseUrl ++ "/api/generate", params := [], jsonBody := none }

/-- What `KeyValueClient.generate_token` does with the response
(src/basic_example.py:27-30): `raise_for_status`, then return
`response.json()['token']`. -/
def generate_token_result (resp : HttpResponse) : Except PyErr JVal :=
  if raise_for_status_raises resp.status then .error .httpError
  else
    match objGet resp.body "token" with
    | some v => .ok v
    | none => .error .keyError

/-- The JSON body that `KeyValueClient.store` sends
(src/basic_example.py:44-49): `{"token": token, "data": data}`, with
`payload["ttl"] = ttl` added only when `if ttl:` is true. -/
def store_body (token : String) (data : JVal) (ttl : Option Int) : JVal :=
  .obj ([("token", JVal.str token), ("data", data)] ++
    (if pyTruthyOptInt ttl then
      match ttl with
      | some t => [("ttl", JVal.int t)]
      | none => []
     else []))

/-- The request issued by `KeyValueClient.store` (src/basic_example.py:51-55):
`POST {base_url}/api/store` with the JSON body of `store_body`. -/
def store_request (baseUrl token : String) (data : JVal) (ttl : Option Int) : HttpRequest :=
  { method := "POST", url := baseUrl ++ "/api/store", params := [],
    jsonBody := some (store_body token data ttl) }

/-- What `KeyValueClient.store` does with the response
(src/basic_example.py:56-57): `raise_for_status`, then return
`response.json()` whole. -/
def store_result (resp : HttpResponse) : Except PyErr JVal :=
  if raise_for_status_raises resp.status then .error .httpError
  else .ok resp.body

/-- The request issued by `KeyValueClient.retrieve`
(src/basic_example.py:69-72): `GET {base_url}/api/retrieve` with
`params={"token": token}`. -/
def retrieve_request (baseUrl token : String) : HttpRequest :=
  { method := "GET", url := baseUrl ++ "/api/retrieve",
    params := [("token", token)], jsonBody := none }

/-- What `KeyValueClient.retrieve` does with the response
(src/basic_example.py:73-75): `raise_for_status`, then return
`response.json()['data']`. -/
def retrieve_result (resp : HttpResponse) : Except PyErr JVal :=
  if raise_for_status_raises resp.status then .error .httpError
  else
    match objGet resp.body "data" with
    | some v => .ok v
    | none => .error .keyError

end KeyValueClient

namespace EncryptedKeyValueClient

/-- `EncryptedKeyValueClient._create_cipher`
(src/encrypted_example.py:38-51): PBKDF2-HMAC-SHA256 with the fixed salt
`b'keyvalue-store-salt-change-this!'`, 100000 iterations and 32-byte output,
urlsafe-base64 encoded and wrapped in a `Fernet` cipher. The cipher is
modelled by its derived key (see `DerivedKey`). -/
def create_cipher (password : String) : DerivedKey :=
  { algorithm := "SHA256", length := 32,
    salt := "keyvalue-store-salt-change-this!",
    iterations := 100000, password := password }

/-- `EncryptedKeyValueClient._encrypt_data` (src/encrypted_example.py:60-67):
`json_str = json.dumps(data)`, `encrypted = self.cipher.encrypt(json_str.encode())`,
return `{"encrypted": True, "payload": base64.b64encode(encrypted).decode('utf-8')}`.
The payload string is the symbolic `JVal.fernetB64 cipher data`. -/
def encrypt_data (cipher : DerivedKey) (data : JVal) : JVal :=
  .obj [("encrypted", JVal.bool true), ("payload", JVal.fernetB64 cipher data)]

/-- `EncryptedKeyValueClient._decrypt_data` (src/encrypted_example.py:69-76):
raise `ValueError` when `encrypted_data.get("encrypted")` is falsy (absent or
not truthy); otherwise `base64.b64decode(encrypted_data["payload"])`
(`KeyError` when the key is absent, `TypeError` on a non-string value), then
`self.cipher.decrypt(payload)` (`InvalidToken` unless the payload is a Fernet
token under this cipher's key — in particular on a plain string, whose bytes
are not a valid token), then `json.loads(decrypted.decode())`, which recovers
the serialized value. Calling `.get` on a non-dict raises `AttributeError`. -/
def decrypt_data (cipher : DerivedKey) (encrypted_data : JVal) : Except PyErr JVal :=
  match encrypted_data with
  | .obj kvs =>
    if pyTruthyOpt (lookupKV kvs "encrypted") then
      match lookupKV kvs "payload" with
      | none => .error .keyError
      | some p =>
        match p with
        | .fernetB64 k plain =>
          if k = cipher then .ok plain else .error .invalidToken
        | .str _ => .error .invalidToken
        | _ => .error .typeError
    else .error .valueError
  | _ => .error .attributeError

/-- The request issued by `EncryptedKeyValueClient.generate_token`
(src/encrypted_example.py:53-58): `GET {base_url}/api/generate`. -/
def generate_request (baseUrl : String) : HttpRequest :=
  { method := "GET", url := baseUrl ++ "/api/generate", params := [], jsonBody := none }

/-- What `EncryptedKeyValueClient.generate_token` does with the response
(src/encrypted_example.py:55-58): `raise_for_status`, then return
`response.json()['token']`. -/
def generate_token_result (resp : HttpResponse) : Except PyErr JVal :=
  if raise_for_status_raises resp.status then .error .httpError
  else
    match objGet resp.body "token" with
    | some v => .ok v
    | none => .error .keyError

/-- The JSON body that `EncryptedKeyValueClient.store` sends
(src/encrypted_example.py:90-97): `{"token": token, "data": self._encrypt_data(data)}`,
with `payload["ttl"] = ttl` added only when `if ttl:` is true. -/
def store_body (cipher : DerivedKey) (token : String) (data : JVal) (ttl : Option Int) : JVal :=
  .obj ([("token", JVal.str token), ("data", encrypt_data cipher data)] ++
    (if pyTruthyOptInt ttl then
      match ttl with
      | some t => [("ttl", JVal.int t)]
      | none => []
     else []))

/-- The request issued by `EncryptedKeyValueClient.store`
(src/encrypted_example.py:99-103): `POST {base_url}/api/store` with the JSON
body of `store_body`. -/
def store_request (baseUrl : String) (cipher : DerivedKey) (token : String)
    (data : JVal) (ttl : Option Int) : HttpRequest :=
  { method := "POST", url := baseUrl ++ "/api/store", params := [],
    jsonBody := some (store_body cipher token data ttl) }

/-- What `EncryptedKeyValueClient.store` does with the response
(src/encrypted_example.py:104-105): `raise_for_status`, then return
`response.json()` whole. -/
def store_result (resp : HttpResponse) : Except PyErr JVal :=
  if raise_for_status_raises resp.status then .error .httpError
  else .ok resp.body

/-- What `EncryptedKeyValueClient.retrieve` does
(src/encrypted_example.py:117-124): `GET {base_url}/api/retrieve` with the
token as query parameter, `raise_for_status`, then
`self._decrypt_data(response.json()['data'])`. -/
def retrieve_result (cipher : DerivedKey) (resp : HttpResponse) : Except PyErr JVal :=
  if raise_for_status_raises resp.status then .error .httpError
  else
    match objGet resp.body "data" with
    | some v => decrypt_data cipher v
    | none => .error .keyError

/-- The request issued by `EncryptedKeyValueClient.retrieve`
(src/encrypted_example.py:117-120): `GET {base_url}/api/retrieve` with
`params={"token": token}`. -/
def retrieve_request (baseUrl token : String) : HttpRequest :=
  { method := "GET", url := baseUrl ++ "/api/retrieve",
    params := [("token", token)], jsonBody := none }

end EncryptedKeyValueClient

/-- Modelled from the spec: the server-side Entry Store is not part of the
given source (only the clients are); §2-§4 of the spec reconstruct it. The
maximum TTL is "fixed at 30 days per the observed client contract" (§4.2). -/
def MAX_TTL_SECONDS : Int := 30 * 24 * 60 * 60

/-- Modelled from the spec: the fixed maximum serialized payload size of §4.2
("validates payload serialized size ≤ a fixed maximum"); the concrete bound is
not given in the source, so an arbitrary fixed constant is used. -/
def MAX_PAYLOAD_BYTES : Nat := 1048576

/-- Modelled from the spec: the Entry Store error taxonomy of §7 (only the
kinds the modelled operations raise). -/
inductive StoreErr where
  | invalidToken
  | invalidTTL
  | payloadTooLarge
  | notFound
deriving DecidableEq, Repr

/-- Split a character list at every `-`, keeping empty segments (the
behavior of splitting on a fixed one-character separator). -/
def splitSep (cs : List Char) : List (List Char) :=
  match cs with
  | [] => [[]]
  | c :: rest =>
    let r := splitSep rest
    if c = '-' then [] :: r
    else
      match r with
      | w :: ws => (c :: w) :: ws
      | [] => [[c]]

/-- Modelled from the spec: token format validation (§3, §4.2) — a token is a
fixed number (5) of nonempty words joined by the separator `-`; membership in
the concrete wordlist is not modelled since the wordlist is not in the source. -/
def validTokenFormat (t : String) : Bool :=
  let ws := splitSep t.toList
  ws.length == 5 && ws.all (fun w => !w.isEmpty)

mutual

/-- Modelled from the spec: the derived `size_bytes` of an entry (§3, "derived,
recomputed each store call") — a serialized-size measure of the payload; the
spec does not pin the exact byte count, so a fixed structural measure is used. -/
def payloadSize : JVal → Nat
  | .null => 4
  | .bool b => if b then 4 else 5
  | .int _ => 4
  | .str s => s.length + 2
  | .fernetB64 _ _ => 64
  | .arr xs => 2 + payloadSizeList xs
  | .obj kvs => 2 + payloadSizeObj kvs

/-- Serialized-size measure of a JSON array's elements (see `payloadSize`). -/
def payloadSizeList : List JVal → Nat
  | [] => 0
  | v :: rest => payloadSize v + payloadSizeList rest

/-- Serialized-size measure of a JSON object's members (see `payloadSize`). -/
def payloadSizeObj : List (String × JVal) → Nat
  | [] => 0
  | (k, v) :: rest => k.length + 4 + payloadSize v + payloadSizeObj rest

end

/-- Modelled from the spec: an Entry of the Entry Store (§3) — payload plus
`created_at`, `updated_at` and the optional `expires_at = created_at + ttl`. -/
structure Entry where
  payload : JVal
  createdAt : Int
  updatedAt : Int
  expiresAt : Option Int

/-- Modelled from the spec: the Entry Store state (§2, §4.2) — the
authoritative mapping from token to entry, modelled as an association list
with unique keys maintained by `put`. -/
structure EntryStore where
  entries : List (String × Entry)

/-- Lookup of a live-or-expired entry by token (first match). -/
def lookupEntry : List (String × Entry) → String → Option Entry
  | [], _ => none
  | (k, e) :: rest, token => if k = token then some e else lookupEntry rest token

/-- Remove any entry for `token` (used by `put` to keep keys unique). -/
def removeEntry (es : List (String × Entry)) (token : String) : List (String × Entry) :=
  es.filter (fun ke => !(ke.1 == token))

/-- Modelled from the spec: `put(token, payload, ttl?) -> {size_bytes}` (§4.2)
— validates the token format (`InvalidToken`), validates `ttl` is within
`(0, MAX_TTL]` (`InvalidTTL` for `ttl = 0 or negative` and for
`ttl exceeding MAX_TTL`, §8), validates the serialized payload size
(`PayloadTooLarge`), then performs an atomic upsert: creates the entry if
absent, else fully replaces the payload and refreshes
`updated_at`/`expires_at`; returns the new store and the new size. -/
def EntryStore.put (s : EntryStore) (token : String) (payload : JVal)
    (ttl : Option Int) (now : Int) : Except StoreErr (EntryStore × Nat) :=
  if !validTokenFormat token then .error .invalidToken
  else if (match ttl with
           | some t => t ≤ 0 || t > MAX_TTL_SECONDS
           | none => false) then .error .invalidTTL
  else if payloadSize payload > MAX_PAYLOAD_BYTES then .error .payloadTooLarge
  else
    let createdAt := match lookupEntry s.entries token with
      | some e => e.createdAt
      | none => now
    let entry : Entry :=
      { payload := payload, createdAt := createdAt, updatedAt := now,
        expiresAt := ttl.map (fun t => now + t) }
    .ok ({ entries := (token, entry) :: removeEntry s.entries token }, payloadSize payload)

/-- Modelled from the spec: `get(token) -> payload` (§4.2) — validates the
token format, fails with `NotFound` if no entry exists, and applies the lazy
expiry check on every read: an entry whose `expires_at` has passed is treated
as absent regardless of background eviction. -/
def EntryStore.get (s : EntryStore) (token : String) (now : Int) : Except StoreErr JVal :=
  if !validTokenFormat token then .error .invalidToken
  else
    match lookupEntry s.entries token with
    | none => .error .notFound
    | some e =>
      match e.expiresAt with
      | some ex => if ex ≤ now then .error .notFound else .ok e.payload
      | none => .ok e.payload

/-!
Theorems, one per claim of the specification review.
-/

/-- Lookup on an association list whose head carries the searched token. -/
theorem lookupEntry_cons_self (token : String) (e : Entry)
    (rest : List (String × Entry)) :
    lookupEntry ((token, e) :: rest) token = some e := by
  simp [lookupEntry]

/-- C1 counterexample: with `ttl = 0` the caller supplies a ttl argument, yet
both clients' `if ttl:` is false and the request body carries no `"ttl"`
field at all (in particular not one equal to `0`). -/
theorem c1_ttl_counterexample :
    objGet (KeyValueClient.store_body "brave-otter-maple-delta-quartz"
      (JVal.obj []) (some 0)) "ttl" = none ∧
    objGet (EncryptedKeyValueClient.store_body
      (EncryptedKeyValueClient.create_cipher "pw")
      "brave-otter-maple-delta-quartz" (JVal.obj []) (some 0)) "ttl" = none := by
  exact ⟨rfl, rfl⟩

/-- C1 (amended): in both clients' store bodies, the `"ttl"` field is present
exactly when the supplied ttl is truthy (neither `None` nor `0`), and then it
equals the caller's integer; it is absent when ttl is omitted or `0`. -/
theorem c1_ttl_field (token : String) (data : JVal) (ttl : Option Int)
    (cipher : DerivedKey) :
    objGet (KeyValueClient.store_body token data ttl) "ttl" =
      (match ttl with
       | some t => if t = 0 then none else some (JVal.int t)
       | none => none) ∧
    objGet (EncryptedKeyValueClient.store_body cipher token data ttl) "ttl" =
      (match ttl with
       | some t => if t = 0 then none else some (JVal.int t)
       | none => none) := by
  match ttl with
  | none =>
    simp [KeyValueClient.store_body, EncryptedKeyValueClient.store_body,
      objGet, lookupKV, pyTruthyOptInt]
  | some t =>
    by_cases h : t = 0 <;>
      simp [KeyValueClient.store_body, EncryptedKeyValueClient.store_body,
        objGet, lookupKV, pyTruthyOptInt, h]

/-- C2: decrypting (with the cipher derived from a password) the envelope
produced by encrypting any JSON-round-trip-stable value with the cipher
derived from the same password recovers the value exactly; the `JVal`
universe consists exactly of the round-trip-stable Python values. -/
theorem c2_encrypt_decrypt_roundtrip (password : String) (data : JVal) :
    EncryptedKeyValueClient.decrypt_data
      (EncryptedKeyValueClient.create_cipher password)
      (EncryptedKeyValueClient.encrypt_data
        (EncryptedKeyValueClient.create_cipher password) data) = .ok data := by
  simp [EncryptedKeyValueClient.decrypt_data, EncryptedKeyValueClient.encrypt_data,
    lookupKV, pyTruthyOpt, pyTruthy]

/-- C3: key derivation is deterministic in the password — two clients built
from equal passwords derive equal Fernet keys, and data encrypted by the one
decrypts to the original under the other. -/
theorem c3_same_password_interoperates (p1 p2 : String) (h : p1 = p2) :
    EncryptedKeyValueClient.create_cipher p1 = EncryptedKeyValueClient.create_cipher p2 ∧
    ∀ data : JVal,
      EncryptedKeyValueClient.decrypt_data (EncryptedKeyValueClient.create_cipher p2)
        (EncryptedKeyValueClient.encrypt_data
          (EncryptedKeyValueClient.create_cipher p1) data) = .ok data := by
  subst h
  refine ⟨rfl, fun data => ?_⟩
  simp [EncryptedKeyValueClient.decrypt_data, EncryptedKeyValueClient.encrypt_data,
    lookupKV, pyTruthyOpt, pyTruthy]

/-- C3 witness: instantiated at a concrete password and value. -/
theorem c3_same_password_interoperates_witness :
    EncryptedKeyValueClient.create_cipher "my-super-secret-password-123" =
      EncryptedKeyValueClient.create_cipher "my-super-secret-password-123" ∧
    EncryptedKeyValueClient.decrypt_data
      (EncryptedKeyValueClient.create_cipher "my-super-secret-password-123")
      (EncryptedKeyValueClient.encrypt_data
        (EncryptedKeyValueClient.create_cipher "my-super-secret-password-123")
        (JVal.obj [("api_key", JVal.str "sk_live_1234567890abcdef")])) =
      .ok (JVal.obj [("api_key", JVal.str "sk_live_1234567890abcdef")]) :=
  ⟨(c3_same_password_interoperates _ _ rfl).1,
   (c3_same_password_interoperates "my-super-secret-password-123"
      "my-super-secret-password-123" rfl).2
     (JVal.obj [("api_key", JVal.str "sk_live_1234567890abcdef")])⟩

/-- C4: when the keys derived from two passwords differ, decrypting under the
second an envelope encrypted under the first raises the authenticated
cipher's `InvalidToken` — it never returns plaintext. -/
theorem c4_wrong_key_rejected (p1 p2 : String) (data : JVal)
    (h : EncryptedKeyValueClient.create_cipher p1 ≠ EncryptedKeyValueClient.create_cipher p2) :
    EncryptedKeyValueClient.decrypt_data (EncryptedKeyValueClient.create_cipher p2)
      (EncryptedKeyValueClient.encrypt_data
        (EncryptedKeyValueClient.create_cipher p1) data) =
      .error .invalidToken := by
  simp [EncryptedKeyValueClient.decrypt_data, EncryptedKeyValueClient.encrypt_data,
    lookupKV, pyTruthyOpt, pyTruthy, h]

/-- C4 witness: the two passwords demonstrated in `main`
(src/encrypted_example.py:131,185) derive different keys, and cross-password
decryption fails with `InvalidToken`. -/
theorem c4_wrong_key_rejected_witness :
    EncryptedKeyValueClient.create_cipher "my-super-secret-password-123" ≠
      EncryptedKeyValueClient.create_cipher "wrong-password" ∧
    EncryptedKeyValueClient.decrypt_data
      (EncryptedKeyValueClient.create_cipher "wrong-password")
      (EncryptedKeyValueClient.encrypt_data
        (EncryptedKeyValueClient.create_cipher "my-super-secret-password-123")
        (JVal.str "secret")) = .error .invalidToken :=
  ⟨by decide,
   c4_wrong_key_rejected "my-super-secret-password-123" "wrong-password"
     (JVal.str "secret") (by decide)⟩

/-- C5: `_encrypt_data` returns a dict with exactly the two keys
`"encrypted"` (mapped to `True`) and `"payload"` (mapped to the base64 text
of the Fernet ciphertext of the JSON serialization of the input). -/
theorem c5_envelope_shape (cipher : DerivedKey) (data : JVal) :
    objKeys (EncryptedKeyValueClient.encrypt_data cipher data) =
      some ["encrypted", "payload"] ∧
    objGet (EncryptedKeyValueClient.encrypt_data cipher data) "encrypted" =
      some (JVal.bool true) ∧
    objGet (EncryptedKeyValueClient.encrypt_data cipher data) "payload" =
      some (JVal.fernetB64 cipher data) := by
  exact ⟨rfl, rfl, rfl⟩

/-- C6: read-your-writes consistency of the Entry Store — whenever
`put(token, payload, ttl)` succeeds, a `get(token)` performed at the same
instant returns the payload exactly. -/
theorem c6_read_your_writes (s s2 : EntryStore) (token : String) (payload : JVal)
    (ttl : Option Int) (now : Int) (n : Nat)
    (h : EntryStore.put s token payload ttl now = .ok (s2, n)) :
    EntryStore.get s2 token now = .ok payload := by
  unfold EntryStore.put at h
  split at h
  · exact absurd h (by simp)
  · split at h
    · exact absurd h (by simp)
    · split at h
      · exact absurd h (by simp)
      · rename_i hTok hTtl hSize
        rw [Except.ok.injEq, Prod.mk.injEq] at h
        obtain ⟨hs2, hn⟩ := h
        subst hs2
        unfold EntryStore.get
        rw [if_neg hTok, lookupEntry_cons_self]
        match hTtlEq : ttl with
        | none => rfl
        | some t =>
          have ht1 : (0 : Int) < t := by
            subst hTtlEq
            simp only [decide_eq_true_eq, Bool.or_eq_true, not_or] at hTtl
            omega
          simp only [Option.map]
          rw [if_neg (by omega : ¬ now + t ≤ now)]

/-- C6 witness: a concrete successful `put` on the empty store, at the
spec's example token and payload, followed by a `get` at the same clock. -/
theorem c6_read_your_writes_witness :
    EntryStore.get
      ⟨[("brave-otter-maple-delta-quartz",
         { payload := JVal.obj [("user", JVal.str "alice")], createdAt := 0,
           updatedAt := 0, expiresAt := some 3600 })]⟩
      "brave-otter-maple-delta-quartz" 0 =
      .ok (JVal.obj [("user", JVal.str "alice")]) :=
  c6_read_your_writes ⟨[]⟩ _ "brave-otter-maple-delta-quartz"
    (JVal.obj [("user", JVal.str "alice")]) (some 3600) 0 17 rfl

/-- C7: `KeyValueClient.retrieve` issues `GET {base_url}/api/retrieve` with
the token as the `token` query parameter, and on a 200 response returns
exactly the value of the `"data"` field of the response body, unchanged. -/
theorem c7_retrieve_contract (baseUrl token : String) (resp : HttpResponse)
    (v : JVal) (hstatus : resp.status = 200)
    (hdata : objGet resp.body "data" = some v) :
    KeyValueClient.retrieve_request baseUrl token =
      { method := "GET", url := baseUrl ++ "/api/retrieve",
        params := [("token", token)], jsonBody := none } ∧
    KeyValueClient.retrieve_result resp = .ok v := by
  refine ⟨rfl, ?_⟩
  simp [KeyValueClient.retrieve_result, raise_for_status_raises, hstatus, hdata]

/-- C7 witness: concrete base URL, token and 200 response. -/
theorem c7_retrieve_contract_witness :
    KeyValueClient.retrieve_request "http://localhost:3000"
        "brave-otter-maple-delta-quartz" =
      { method := "GET", url := "http://localhost:3000" ++ "/api/retrieve",
        params := [("token", "brave-otter-maple-delta-quartz")], jsonBody := none } ∧
    KeyValueClient.retrieve_result
      { status := 200, body := JVal.obj [("data", JVal.str "stored")] } =
      .ok (JVal.str "stored") :=
  c7_retrieve_contract "http://localhost:3000" "brave-otter-maple-delta-quartz"
    { status := 200, body := JVal.obj [("data", JVal.str "stored")] }
    (JVal.str "stored") rfl rfl

/-- C9 counterexample: a `300` status is non-2xx, yet
`requests.Response.raise_for_status` does not raise on 3xx, so
`generate_token` returns the parsed `"token"` field of that response instead
of raising. -/
theorem c9_non2xx_counterexample :
    KeyValueClient.generate_token_result
      { status := 300, body := JVal.obj [("token", JVal.str "x")] } =
      .ok (JVal.str "x") := rfl

/-- C9 (amended): every client method raises `HTTPError` when the response
status is in `[400, 600)` — the range `requests.raise_for_status` reports —
and a 4xx/5xx response never yields a parsed value; statuses outside that
range (including 3xx) do not trigger the raise. -/
theorem c9_error_statuses_raise (resp : HttpResponse) (cipher : DerivedKey)
    (h4 : 400 ≤ resp.status) (h6 : resp.status < 600) :
    KeyValueClient.generate_token_result resp = .error .httpError ∧
    KeyValueClient.store_result resp = .error .httpError ∧
    KeyValueClient.retrieve_result resp = .error .httpError ∧
    EncryptedKeyValueClient.generate_token_result resp = .error .httpError ∧
    EncryptedKeyValueClient.store_result resp = .error .httpError ∧
    EncryptedKeyValueClient.retrieve_result cipher resp = .error .httpError := by
  have hr : raise_for_status_raises resp.status = true := by
    simp only [raise_for_status_raises, Bool.and_eq_true, decide_eq_true_eq]
    omega
  refine ⟨?_, ?_, ?_, ?_, ?_, ?_⟩ <;>
    simp [KeyValueClient.generate_token_result, KeyValueClient.store_result,
      KeyValueClient.retrieve_result, EncryptedKeyValueClient.generate_token_result,
      EncryptedKeyValueClient.store_result, EncryptedKeyValueClient.retrieve_result, hr]

/-- C9 witness: a concrete 404 response makes every method raise. -/
theorem c9_error_statuses_raise_witness :
    KeyValueClient.generate_token_result { status := 404, body := JVal.null } =
      .error .httpError ∧
    KeyValueClient.store_result { status := 404, body := JVal.null } =
      .error .httpError ∧
    KeyValueClient.retrieve_result { status := 404, body := JVal.null } =
      .error .httpError ∧
    EncryptedKeyValueClient.generate_token_result { status := 404, body := JVal.null } =
      .error .httpError ∧
    EncryptedKeyValueClient.store_result { status := 404, body := JVal.null } =
      .error .httpError ∧
    EncryptedKeyValueClient.retrieve_result
      (EncryptedKeyValueClient.create_cipher "pw")
      { status := 404, body := JVal.null } = .error .httpError :=
  c9_error_statuses_raise { status := 404, body := JVal.null }
    (EncryptedKeyValueClient.create_cipher "pw") (by decide) (by decide)

/-- C10: on a dict whose `"encrypted"` key is absent or falsy,
`_decrypt_data` raises `ValueError` (regardless of any `"payload"` content,
i.e. before base64 decoding or decryption can occur), and consequently
`retrieve` fails with that `ValueError` on any 200 response whose stored
entry lacks the encrypted envelope. -/
theorem c10_unencrypted_rejected (cipher : DerivedKey)
    (kvs : List (String × JVal))
    (h : pyTruthyOpt (lookupKV kvs "encrypted") = false) :
    EncryptedKeyValueClient.decrypt_data cipher (JVal.obj kvs) =
      .error .valueError ∧
    ∀ resp : HttpResponse, resp.status = 200 →
      objGet resp.body "data" = some (JVal.obj kvs) →
      EncryptedKeyValueClient.retrieve_result cipher resp =
        .error .valueError := by
  have hdec : EncryptedKeyValueClient.decrypt_data cipher (JVal.obj kvs) =
      .error .valueError := by
    simp [EncryptedKeyValueClient.decrypt_data, h]
  refine ⟨hdec, fun resp hstatus hdata => ?_⟩
  simp [EncryptedKeyValueClient.retrieve_result, raise_for_status_raises,
    hstatus, hdata, hdec]

/-- C10 witness: a plaintext entry (no `"encrypted"` flag) is rejected both
by `_decrypt_data` directly and through `retrieve`. -/
theorem c10_unencrypted_rejected_witness :
    EncryptedKeyValueClient.decrypt_data
      (EncryptedKeyValueClient.create_cipher "pw")
      (JVal.obj [("payload", JVal.str "hello")]) = .error .valueError ∧
    EncryptedKeyValueClient.retrieve_result
      (EncryptedKeyValueClient.create_cipher "pw")
      { status := 200,
        body := JVal.obj [("data", JVal.obj [("payload", JVal.str "hello")])] } =
      .error .valueError := by
  have h := c10_unencrypted_rejected (EncryptedKeyValueClient.create_cipher "pw")
    [("payload", JVal.str "hello")] rfl
  exact ⟨h.1, h.2 _ rfl rfl⟩

/-- C8: for all inputs, both clients' store bodies contain a `"token"` field
equal to the caller's token and a `"data"` field — the caller's data for the
basic client, the encrypted envelope for the encrypted client. -/
theorem c8_store_body_fields (token : String) (data : JVal) (ttl : Option Int)
    (cipher : DerivedKey) :
    objGet (KeyValueClient.store_body token data ttl) "token" =
      some (JVal.str token) ∧
    objGet (KeyValueClient.store_body token data ttl) "data" = some data ∧
    objGet (EncryptedKeyValueClient.store_body cipher token data ttl) "token" =
      some (JVal.str token) ∧
    objGet (EncryptedKeyValueClient.store_body cipher token data ttl) "data" =
      some (EncryptedKeyValueClient.encrypt_data cipher data) := by
  refine ⟨?_, ?_, ?_, ?_⟩ <;>
    simp [KeyValueClient.store_body, EncryptedKeyValueClient.store_body,
      objGet, lookupKV]
